import Mathlib

/-!
Verification of the iOS IAP verification server (`src/server.js`).

The development shallowly embeds the two core functions of the server —
`decideActiveFromStatuses` and `getOriginalTransactionIdFromReceipt` — together
with the error branch of the `/verify_apple_receipt` handler. JavaScript values
are modelled explicitly: absent / `null` / `undefined` object fields become
`Option`, JS truthiness tests (`Boolean(x)`, `x || y`, `if (x)`) become the
`js*` helper functions below, and epoch-millisecond timestamps become `Nat`
(the vendor's numeric-string timestamps are modelled by their numeric value,
matching the `Number(...)` coercion in the source). Network collaborators
(`fetch`) are oracles passed as parameters; code that can throw is embedded in
`Except`, and the source's `try`/`catch` blocks become `match` on the `Except`.
-/

namespace IapServer

/-- JS truthiness of a possibly-absent string: `undefined`/`null` and `""` are
falsy, every other string is truthy. -/
def jsStrTruthy : Option String → Bool
  | some s => decide (s ≠ "")
  | none => false

/-- JS truthiness of a possibly-absent number field: absent and `0` are falsy. -/
def jsNatTruthy : Option Nat → Bool
  | some v => decide (v ≠ 0)
  | none => false

/-- JS `x || null` on a possibly-absent string: a falsy value collapses to null. -/
def jsOrNullStr : Option String → Option String
  | some s => if s = "" then none else some s
  | none => none

/-- JS `Number(x || 0)` on a possibly-absent numeric field. -/
def jsOrZeroNat (o : Option Nat) : Nat := o.getD 0

/-! ## Data model of the App Store Server API status response (`src/server.js:174-204`) -/

/-- Decoded signed transaction (output of the `decodeTransaction` collaborator).
Fields the decision logic reads; each may be absent. -/
structure Tx where
  productId : Option String
  expiresDate : Option Nat
  revocationDate : Option Nat
  cancellationDate : Option Nat
deriving DecidableEq

/-- Decoded signed renewal info (output of the `decodeRenewalInfo` collaborator). -/
structure Rn where
  gracePeriodExpiresDate : Option Nat
deriving DecidableEq

/-- One element of a group's `lastTransactions` array: the two signed payloads. -/
structure StatusItem where
  signedTransactionInfo : String
  signedRenewalInfo : String
deriving DecidableEq

/-- One subscription group of the status response; `lastTransactions` may be
absent (the source guards with `?? []`). -/
structure StatusGroup where
  lastTransactions : Option (List StatusItem)
deriving DecidableEq

/-- The status response; `data` may be absent (the source guards with
`statusResponse?.data ?? []`). -/
structure StatusResponse where
  data : Option (List StatusGroup)
deriving DecidableEq

/-- The items iterated by the nested `for` loops of `decideActiveFromStatuses`,
in source iteration order. -/
def statusItems (resp : Option StatusResponse) : List StatusItem :=
  ((resp.bind StatusResponse.data).getD []).flatMap fun g => g.lastTransactions.getD []

/-- A decode collaborator: may throw (`Except.error`) or yield no record
(`Except.ok none`), mirroring an arbitrary JS decoder. -/
def DecodeTx := String → Except Unit (Option Tx)

/-- Renewal-info decode collaborator. -/
def DecodeRn := String → Except Unit (Option Rn)

/-- The per-item candidate object built at `src/server.js:186-196`. -/
structure Candidate where
  productId : Option String
  expiresAt : Nat
  active : Bool
deriving DecidableEq

/-- `Number(tx?.expiresDate || 0)` (`src/server.js:187`). -/
def txExpiresMs (txo : Option Tx) : Nat := jsOrZeroNat (txo.bind Tx.expiresDate)

/-- `Boolean(tx?.revocationDate) || Boolean(tx?.cancellationDate)`
(`src/server.js:188`): JS truthiness, so a present-but-zero date is NOT
treated as cancelled. -/
def txCancelled (txo : Option Tx) : Bool :=
  jsNatTruthy (txo.bind Tx.revocationDate) || jsNatTruthy (txo.bind Tx.cancellationDate)

/-- `rn?.gracePeriodExpiresDate ? Number(rn.gracePeriodExpiresDate) : 0`
(`src/server.js:189`). -/
def rnGraceMs (rno : Option Rn) : Nat :=
  if jsNatTruthy (rno.bind Rn.gracePeriodExpiresDate) then
    jsOrZeroNat (rno.bind Rn.gracePeriodExpiresDate)
  else 0

/-- The candidate built from one decoded pair (`src/server.js:186-196`):
`active = !cancelled && ((expiresMs > now) || (graceMs > now))`,
`candidate = { productId: tx?.productId || null, expiresAt: expiresMs || 0, active }`. -/
def candidateOf (now : Nat) (txo : Option Tx) (rno : Option Rn) : Candidate :=
  { productId := jsOrNullStr (txo.bind Tx.productId)
    expiresAt := txExpiresMs txo
    active := !txCancelled txo && (decide (txExpiresMs txo > now) || decide (rnGraceMs rno > now)) }

/-- `if (tx?.productId) seen.add(tx.productId)` (`src/server.js:183`): a JS
`Set` keeps first-insertion order, modelled as an ordered duplicate-free list. -/
def seenInsert (seen : List String) (txo : Option Tx) : List String :=
  match txo.bind Tx.productId with
  | some p => if p ≠ "" then (if seen.contains p then seen else seen ++ [p]) else seen
  | none => seen

/-- `if (targetProductId && tx?.productId !== targetProductId) continue`
(`src/server.js:184`). -/
def skipForTarget (target : Option String) (txo : Option Tx) : Bool :=
  jsStrTruthy target && !(decide (txo.bind Tx.productId = target))

/-- `if (!newest || candidate.expiresAt > newest.expiresAt) newest = candidate`
(`src/server.js:197`). -/
def pickNewest (newest : Option Candidate) (c : Candidate) : Option Candidate :=
  match newest with
  | none => some c
  | some n => if c.expiresAt > n.expiresAt then some c else some n

/-- One loop iteration of `decideActiveFromStatuses` on an already-decoded
pair: state is `(newest, seen)`. -/
def stepPair (now : Nat) (target : Option String)
    (acc : Option Candidate × List String) (pr : Option Tx × Option Rn) :
    Option Candidate × List String :=
  let seen := seenInsert acc.2 pr.1
  if skipForTarget target pr.1 then (acc.1, seen)
  else (pickNewest acc.1 (candidateOf now pr.1 pr.2), seen)

/-- The loop of `decideActiveFromStatuses` (`src/server.js:178-199`): decode
both payloads for each item (a decoder throw propagates), then update the
`(newest, seen)` state. -/
def processItems (dT : DecodeTx) (dR : DecodeRn) (now : Nat) (target : Option String) :
    List StatusItem → Option Candidate × List String →
    Except Unit (Option Candidate × List String)
  | [], acc => .ok acc
  | item :: rest, acc =>
    match dT item.signedTransactionInfo with
    | .error e => .error e
    | .ok txo =>
      match dR item.signedRenewalInfo with
      | .error e => .error e
      | .ok rno => processItems dT dR now target rest (stepPair now target acc (txo, rno))

/-- The entitlement decision object returned by `decideActiveFromStatuses`:
the `NO_TRANSACTIONS` branch carries no `productId`/`expiresAt` fields
(modelled as `none`), the candidate branch carries no `reason`. -/
structure Decision where
  active : Bool
  productId : Option String := none
  expiresAt : Option Nat := none
  reason : Option String := none
  seenProducts : List String
deriving DecidableEq

/-- `decideActiveFromStatuses(statusResponse, targetProductId)`
(`src/server.js:174-204`). A decoder exception propagates as `Except.error`. -/
def decideActiveFromStatuses (dT : DecodeTx) (dR : DecodeRn) (now : Nat)
    (statusResponse : Option StatusResponse) (targetProductId : Option String) :
    Except Unit Decision :=
  match processItems dT dR now targetProductId (statusItems statusResponse) (none, []) with
  | .error e => .error e
  | .ok (none, seen) =>
    .ok { active := false, reason := some "NO_TRANSACTIONS", seenProducts := seen }
  | .ok (some c, seen) =>
    .ok { active := c.active, productId := c.productId, expiresAt := some c.expiresAt,
          seenProducts := seen }

/-! ### Derived views used to state theorems -/

/-- Decode all items in iteration order (same order and same first-failure as
the interleaved loop; related to `processItems` by `processItems_eq_foldl`). -/
def decodeAll (dT : DecodeTx) (dR : DecodeRn) :
    List StatusItem → Except Unit (List (Option Tx × Option Rn))
  | [] => .ok []
  | item :: rest =>
    match dT item.signedTransactionInfo with
    | .error e => .error e
    | .ok txo =>
      match dR item.signedRenewalInfo with
      | .error e => .error e
      | .ok rno =>
        match decodeAll dT dR rest with
        | .error e => .error e
        | .ok prs => .ok ((txo, rno) :: prs)

/-- The candidate list after target-product filtering, in iteration order. -/
def candsOf (now : Nat) (target : Option String) :
    List (Option Tx × Option Rn) → List Candidate
  | [] => []
  | pr :: rest =>
    if skipForTarget target pr.1 then candsOf now target rest
    else candidateOf now pr.1 pr.2 :: candsOf now target rest

/-- The seen-products accumulation over a pair list, from a given start set. -/
def seenFoldl (s : List String) (pairs : List (Option Tx × Option Rn)) : List String :=
  pairs.foldl (fun acc pr => seenInsert acc pr.1) s

/-- The final seen-products list of the loop. -/
def seenOf (pairs : List (Option Tx × Option Rn)) : List String := seenFoldl [] pairs

/-- First maximum of a candidate list by `expiresAt` (strict `>` keeps the
earlier element on ties) — the mathematical content of the `pickNewest` fold. -/
def firstMax (c : Candidate) : List Candidate → Candidate
  | [] => c
  | x :: xs => firstMax (if x.expiresAt > c.expiresAt then x else c) xs

/-! ## Legacy receipt resolver (`src/server.js:102-171`) -/

/-- The `receiptB64` argument as a JS value: absent (`undefined`/`null`),
present but not a string, or a string. -/
inductive RIn
  | undef
  | nonString
  | str (s : String)
deriving DecidableEq

/-- The `status` field of a legacy `/verifyReceipt` JSON body: a number, or a
string sentinel such as the `"NON_JSON"` injected by `postVerifyReceipt`. -/
inductive JStatus
  | num (n : Int)
  | str (s : String)
deriving DecidableEq

/-- One entry of `latest_receipt_info` / `receipt.in_app`. `expires_date_ms`
is modelled by its numeric value (the source applies `Number(...)`). -/
structure Lri where
  expires_date_ms : Option Nat
  original_transaction_id : Option String
deriving DecidableEq

/-- The `receipt` object of a legacy response. -/
structure LVReceipt where
  in_app : Option (List Lri)
deriving DecidableEq

/-- A parsed legacy `/verifyReceipt` response body (fields may be absent). -/
structure LVJson where
  status : Option JStatus := none
  latest_receipt_info : Option (List Lri) := none
  receipt : Option LVReceipt := none
  message : Option String := none
  raw : Option String := none
deriving DecidableEq

/-- Outcome of one `postVerifyReceipt` call: the underlying `fetch` (or body
read) threw, or a parsed body came back (`postVerifyReceipt` itself converts a
non-JSON body into a `status: "NON_JSON"` sentinel object, so that case is an
`ok` with a string status). -/
inductive CallResult
  | netThrow (e : String)
  | ok (j : LVJson)

/-- The two fixed legacy endpoints (`src/server.js:115-116`). -/
inductive VUrl
  | prod
  | sandbox
deriving DecidableEq

/-- Configuration read by the resolver. -/
structure EnvCfg where
  nodeEnv : String
  sharedSecret : String
deriving DecidableEq

/-- `startUrl = NODE_ENV === "production" ? urlProd : urlSandbox`
(`src/server.js:117`). -/
def startUrl (env : EnvCfg) : VUrl := if env.nodeEnv = "production" then .prod else .sandbox

/-- The guard `!receiptB64 || typeof receiptB64 !== "string" || receiptB64.length < 20`
(`src/server.js:104`); for a string, `!s` means `s = ""`, subsumed by the
length test. -/
def receiptGuardFails : RIn → Bool
  | .undef => true
  | .nonString => true
  | .str s => decide (s.length < 20)

/-- The debug object attached to a resolver result; absent JS fields are
`none` (the `message` field holds `json.message || null` when present). -/
structure RDebug where
  status : Option JStatus := none
  note : Option String := none
  envTried : Option String := none
  hasLatest : Option Bool := none
  hasReceipt : Option Bool := none
  message : Option (Option String) := none
  error : Option String := none
deriving DecidableEq

/-- Resolver result shape `{ originalTxId, debug }`. -/
structure ResolveResult where
  originalTxId : Option String
  debug : RDebug
deriving DecidableEq

/-- `arr.reduce((a, b) => Number(a.expires_date_ms || 0) > Number(b.expires_date_ms || 0) ? a : b)`
(`src/server.js:130-132`), with the first element as initial accumulator. -/
def reduceLatest (a : Lri) : List Lri → Lri
  | [] => a
  | b :: t =>
    reduceLatest
      (if jsOrZeroNat a.expires_date_ms > jsOrZeroNat b.expires_date_ms then a else b) t

/-- `src/server.js:126-134`: the identifier preferred from
`latest_receipt_info` — `latest?.original_transaction_id || null` of the
`reduce` winner when the array is present and non-empty, else `null`. -/
def latestOtid (json : LVJson) : Option String :=
  match json.latest_receipt_info with
  | some (h :: t) => jsOrNullStr (reduceLatest h t).original_transaction_id
  | _ => none

/-- `src/server.js:137-141`: the fallback identifier from the first entry of
`receipt.in_app`, when that array is present and non-empty. -/
def fallbackOtid (json : LVJson) : Option String :=
  match json.receipt with
  | some rc =>
    match rc.in_app with
    | some (first :: _) => jsOrNullStr first.original_transaction_id
    | _ => none
  | none => none

/-- The `originalTxId` variable after both extraction attempts
(`src/server.js:126-141`): the fallback applies exactly when the preferred
identifier is falsy (`if (!originalTxId && ...)`). -/
def extractedOtid (json : LVJson) : Option String :=
  if jsStrTruthy (latestOtid json) then latestOtid json else fallbackOtid json

/-- Lines 124-167 of `src/server.js`: given the final legacy JSON (after any
environment-redirect retries), extract the identifier or build the failure
diagnostic. -/
def finishJson (env : EnvCfg) (json : LVJson) : ResolveResult :=
  if json.status = some (.num 0) then
    if jsStrTruthy (extractedOtid json) then
      { originalTxId := extractedOtid json
        debug := { status := some (.num 0), envTried := some env.nodeEnv } }
    else
      { originalTxId := none
        debug := { status := some (.num 0), envTried := some env.nodeEnv,
                   note := some "No original_transaction_id in latest_receipt_info or receipt.in_app" } }
  else
    { originalTxId := none
      debug := { status := json.status, envTried := some env.nodeEnv,
                 hasLatest := some json.latest_receipt_info.isSome,
                 hasReceipt := some json.receipt.isSome,
                 message := some (jsOrNullStr json.message) } }

/-- The `try` block of `getOriginalTransactionIdFromReceipt`
(`src/server.js:103-167`). The network oracle `net` gives the outcome of the
k-th `postVerifyReceipt` call; the returned list records the URLs called, in
order. A `fetch` throw escapes the block as `Except.error` carrying the calls
already made. -/
def resolveBody (env : EnvCfg) (net : Nat → CallResult) (r : RIn) :
    Except (String × List VUrl) (ResolveResult × List VUrl) :=
  if receiptGuardFails r then
    .ok ({ originalTxId := none
           debug := { status := some (.num 21002), note := some "receipt missing or too short" } },
         [])
  else
    match net 0 with
    | .netThrow e => .error (e, [startUrl env])
    | .ok j0 =>
      if j0.status = some (.num 21007) then
        match net 1 with
        | .netThrow e => .error (e, [startUrl env, .sandbox])
        | .ok j1 =>
          if j1.status = some (.num 21008) then
            match net 2 with
            | .netThrow e => .error (e, [startUrl env, .sandbox, .prod])
            | .ok j2 => .ok (finishJson env j2, [startUrl env, .sandbox, .prod])
          else .ok (finishJson env j1, [startUrl env, .sandbox])
      else if j0.status = some (.num 21008) then
        match net 1 with
        | .netThrow e => .error (e, [startUrl env, .prod])
        | .ok j1 => .ok (finishJson env j1, [startUrl env, .prod])
      else .ok (finishJson env j0, [startUrl env])

/-- `getOriginalTransactionIdFromReceipt(receiptB64)` (`src/server.js:102-171`):
the surrounding `try`/`catch` converts any thrown error into
`{ originalTxId: null, debug: { error } }`. Always returns (never throws);
the second component is the list of legacy calls made. -/
def getOriginalTransactionIdFromReceipt (env : EnvCfg) (net : Nat → CallResult) (r : RIn) :
    ResolveResult × List VUrl :=
  match resolveBody env net r with
  | .ok v => v
  | .error (e, calls) => ({ originalTxId := none, debug := { error := some e } }, calls)

/-! ## `/verify_apple_receipt` handler fragments (`src/server.js:245-306`) -/

/-- The exception thrown by the authoritative status lookup, as the handler
sees it. `isTimeout` records whether the underlying failure was a timeout —
the handler never inspects it. -/
structure ApiError where
  httpStatusCode : Option Nat
  isTimeout : Bool
deriving DecidableEq

/-- An HTTP response of the handler (status plus the fields of the JSON body
the claims are about). -/
structure HandlerResponse where
  status : Nat
  active : Bool
  reason : Option String
deriving DecidableEq

/-- The `catch` branch of Step 2 (`src/server.js:267-293`):
`res.status(401 === httpStatusCode ? 401 : 500)` with
`httpStatusCode = e?.httpStatusCode || 0`, body `active: false`,
`reason: "APPLE_SERVER_API_ERROR"`. -/
def verifyAppleReceiptApiFailure (e : ApiError) : HandlerResponse :=
  let httpStatusCode := jsOrZeroNat e.httpStatusCode
  { status := if httpStatusCode = 401 then 401 else 500
    active := false
    reason := some "APPLE_SERVER_API_ERROR" }

/-- Step 3 plus the handler's outer `catch` (`src/server.js:296-305`): a
decision is returned as a 200 body, a propagated exception becomes
`500 SERVER_ERROR` with `active: false`. -/
def verifyHandleDecision (d : Except Unit Decision) : HandlerResponse :=
  match d with
  | .error _ => { status := 500, active := false, reason := some "SERVER_ERROR" }
  | .ok dec => { status := 200, active := dec.active, reason := dec.reason }

/-! ## Concrete fixtures used by counterexamples and witnesses -/

/-- A status item whose signed payloads are the opaque blobs `"sig1"`/`"ren1"`. -/
def item1 : StatusItem := { signedTransactionInfo := "sig1", signedRenewalInfo := "ren1" }

/-- A second status item, blobs `"sig2"`/`"ren2"`. -/
def item2 : StatusItem := { signedTransactionInfo := "sig2", signedRenewalInfo := "ren2" }

/-- A status response holding exactly `item1` in one group. -/
def resp1 : StatusResponse := { data := some [{ lastTransactions := some [item1] }] }

/-- A status response holding `item1` then `item2` in one group. -/
def resp2 : StatusResponse := { data := some [{ lastTransactions := some [item1, item2] }] }

/-- A transaction with a present-but-zero revocation date and a future expiry:
JS `Boolean(0)` is false, so the source does not treat it as cancelled. -/
def txRevokedZero : Tx :=
  { productId := some "p", expiresDate := some 2, revocationDate := some 0,
    cancellationDate := none }

/-- An uncancelled transaction for product `"w"` expiring at 5. -/
def txAliveW : Tx :=
  { productId := some "w", expiresDate := some 5, revocationDate := none,
    cancellationDate := none }

/-- An uncancelled transaction for product `"alive"` expiring at 100. -/
def txAlive : Tx :=
  { productId := some "alive", expiresDate := some 100, revocationDate := none,
    cancellationDate := none }

/-- A revoked transaction for product `"dead"` with the strictly greatest
expiry, 200. -/
def txDead : Tx :=
  { productId := some "dead", expiresDate := some 200, revocationDate := some 50,
    cancellationDate := none }

/-- A transaction for product `"p1"` (used to probe target filtering). -/
def txP1 : Tx :=
  { productId := some "p1", expiresDate := some 10, revocationDate := none,
    cancellationDate := none }

/-- Transaction decoder for the C10 scenario: `item1` decodes to `txAlive`,
everything else to `txDead`. -/
def dTxC10 : DecodeTx := fun s => .ok (if s = "sig1" then some txAlive else some txDead)

/-- An uncancelled transaction for product `"a"` expiring at 5 (tie partner). -/
def txTieA : Tx :=
  { productId := some "a", expiresDate := some 5, revocationDate := none,
    cancellationDate := none }

/-- An uncancelled transaction for product `"b"` also expiring at 5. -/
def txTieB : Tx :=
  { productId := some "b", expiresDate := some 5, revocationDate := none,
    cancellationDate := none }

/-- Transaction decoder for the tie scenario: `item1` decodes to `txTieA`,
everything else to `txTieB`. -/
def dTxTie : DecodeTx := fun s => .ok (if s = "sig1" then some txTieA else some txTieB)

/-- Renewal decoder that always yields no record. -/
def dRnNone : DecodeRn := fun _ => .ok none

/-- Transaction decoder that throws on `"sig1"` and yields `txAlive` otherwise. -/
def dTxThrow1 : DecodeTx := fun s => if s = "sig1" then .error () else .ok (some txAlive)

/-- A sandbox-environment configuration. -/
def envSandbox : EnvCfg := { nodeEnv := "sandbox", sharedSecret := "secret" }

/-- A network oracle whose every call throws. -/
def netThrowAll : Nat → CallResult := fun _ => .netThrow "boom"

/-- A network oracle answering 21007, then 21008, then success with one
renewal-history entry. -/
def netRedirect : Nat → CallResult := fun k =>
  if k = 0 then .ok { status := some (.num 21007) }
  else if k = 1 then .ok { status := some (.num 21008) }
  else .ok { status := some (.num 0),
             latest_receipt_info :=
               some [{ expires_date_ms := some 100, original_transaction_id := some "otx" }] }

/-- A well-formed receipt blob (a string of at least 20 characters). -/
def receiptOk : RIn := .str "ABCDEFGHIJKLMNOPQRSTUVWX"

/-- A status-0 legacy response with one renewal-history entry. -/
def jsonSuccess : LVJson :=
  { status := some (.num 0),
    latest_receipt_info :=
      some [{ expires_date_ms := some 100, original_transaction_id := some "otx" }] }

/-! ## Helper lemmas -/

/-- When every decode succeeds, the interleaved loop equals a pure fold over
the decoded pairs. -/
theorem processItems_eq_foldl (dT : DecodeTx) (dR : DecodeRn) (now : Nat)
    (target : Option String) :
    ∀ (items : List StatusItem) (pairs : List (Option Tx × Option Rn))
      (acc : Option Candidate × List String),
      decodeAll dT dR items = .ok pairs →
      processItems dT dR now target items acc =
        .ok (List.foldl (stepPair now target) acc pairs)
  | [], pairs, acc, h => by
    simp only [decodeAll, Except.ok.injEq] at h
    subst h
    simp [processItems]
  | item :: rest, pairs, acc, h => by
    simp only [decodeAll] at h
    simp only [processItems]
    cases hT : dT item.signedTransactionInfo with
    | error e => rw [hT] at h; exact absurd h (by simp)
    | ok txo =>
      rw [hT] at h
      cases hR : dR item.signedRenewalInfo with
      | error e => rw [hR] at h; exact absurd h (by simp)
      | ok rno =>
        rw [hR] at h
        cases hA : decodeAll dT dR rest with
        | error e => rw [hA] at h; exact absurd h (by simp)
        | ok prs =>
          rw [hA] at h
          simp only [Except.ok.injEq] at h
          subst h
          simp only [List.foldl_cons]
          exact processItems_eq_foldl dT dR now target rest prs _ hA

/-- A decoder throw makes the whole loop throw. -/
theorem processItems_error (dT : DecodeTx) (dR : DecodeRn) (now : Nat)
    (target : Option String) :
    ∀ (items : List StatusItem) (acc : Option Candidate × List String),
      decodeAll dT dR items = .error () →
      processItems dT dR now target items acc = .error ()
  | [], _, h => by simp [decodeAll] at h
  | item :: rest, acc, h => by
    simp only [decodeAll] at h
    simp only [processItems]
    cases hT : dT item.signedTransactionInfo with
    | error e => rfl
    | ok txo =>
      rw [hT] at h
      cases hR : dR item.signedRenewalInfo with
      | error e => rfl
      | ok rno =>
        rw [hR] at h
        cases hA : decodeAll dT dR rest with
        | error e =>
          exact processItems_error dT dR now target rest _ (by rw [hA])
        | ok prs => rw [hA] at h; exact absurd h (by simp)

/-- The `newest` component of the fold is the `pickNewest` fold over the
filtered candidate list. -/
theorem foldl_step_fst (now : Nat) (target : Option String) :
    ∀ (pairs : List (Option Tx × Option Rn)) (n : Option Candidate) (s : List String),
      (List.foldl (stepPair now target) (n, s) pairs).1 =
        List.foldl pickNewest n (candsOf now target pairs)
  | [], n, s => rfl
  | pr :: rest, n, s => by
    simp only [List.foldl_cons, candsOf]
    cases hsk : skipForTarget target pr.1 with
    | true =>
      simp only [stepPair, hsk, if_true]
      rw [foldl_step_fst now target rest n _]
    | false =>
      simp only [stepPair, hsk, Bool.false_eq_true, if_false, List.foldl_cons]
      rw [foldl_step_fst now target rest _ _]

/-- The `seen` component of the fold is independent of the target filter. -/
theorem foldl_step_snd (now : Nat) (target : Option String) :
    ∀ (pairs : List (Option Tx × Option Rn)) (n : Option Candidate) (s : List String),
      (List.foldl (stepPair now target) (n, s) pairs).2 = seenFoldl s pairs
  | [], n, s => rfl
  | pr :: rest, n, s => by
    simp only [List.foldl_cons, seenFoldl]
    cases hsk : skipForTarget target pr.1 with
    | true =>
      simp only [stepPair, hsk, if_true]
      rw [foldl_step_snd now target rest n _]
      rfl
    | false =>
      simp only [stepPair, hsk, Bool.false_eq_true, if_false]
      rw [foldl_step_snd now target rest _ _]
      rfl

/-- `decideActiveFromStatuses` in terms of the decoded pairs: the decision is
the `pickNewest` fold over the filtered candidates, with the seen-products
accumulation alongside. -/
theorem decideActive_spec (dT : DecodeTx) (dR : DecodeRn) (now : Nat)
    (resp : Option StatusResponse) (target : Option String)
    (pairs : List (Option Tx × Option Rn))
    (h : decodeAll dT dR (statusItems resp) = .ok pairs) :
    decideActiveFromStatuses dT dR now resp target =
      match List.foldl pickNewest none (candsOf now target pairs) with
      | none => .ok { active := false, reason := some "NO_TRANSACTIONS",
                      seenProducts := seenOf pairs }
      | some c => .ok { active := c.active, productId := c.productId,
                        expiresAt := some c.expiresAt, seenProducts := seenOf pairs } := by
  have hfold := processItems_eq_foldl dT dR now target (statusItems resp) pairs (none, []) h
  have hpair : List.foldl (stepPair now target) (none, []) pairs =
      (List.foldl pickNewest none (candsOf now target pairs), seenOf pairs) := by
    have h1 := foldl_step_fst now target pairs none []
    have h2 := foldl_step_snd now target pairs none []
    exact Prod.ext h1 h2
  simp only [decideActiveFromStatuses, hfold, hpair]
  cases List.foldl pickNewest none (candsOf now target pairs) <;> rfl

/-- The `pickNewest` fold from a `some` accumulator computes `firstMax`. -/
theorem foldl_pick_some :
    ∀ (l : List Candidate) (n : Candidate),
      List.foldl pickNewest (some n) l = some (firstMax n l)
  | [], n => rfl
  | x :: xs, n => by
    simp only [List.foldl_cons, firstMax]
    have hstep : pickNewest (some n) x = some (if x.expiresAt > n.expiresAt then x else n) := by
      simp only [pickNewest]
      by_cases hx : x.expiresAt > n.expiresAt <;> simp [hx]
    rw [hstep]
    exact foldl_pick_some xs _

/-- The `pickNewest` fold on a non-empty candidate list is `firstMax`. -/
theorem foldl_pick_cons (c : Candidate) (l : List Candidate) :
    List.foldl pickNewest none (c :: l) = some (firstMax c l) := by
  simp only [List.foldl_cons, pickNewest]
  exact foldl_pick_some l c

/-- The accumulator never exceeds the running first maximum. -/
theorem le_firstMax :
    ∀ (l : List Candidate) (c : Candidate), c.expiresAt ≤ (firstMax c l).expiresAt
  | [], c => le_refl _
  | x :: xs, c => by
    simp only [firstMax]
    by_cases hx : x.expiresAt > c.expiresAt
    · simp only [hx, if_true]
      exact le_of_lt (lt_of_lt_of_le hx (le_firstMax xs x))
    · simp only [hx, if_false]
      exact le_firstMax xs c

/-- `firstMax` belongs to the list it summarises. -/
theorem firstMax_mem (c : Candidate) (l : List Candidate) : firstMax c l ∈ c :: l := by
  induction l generalizing c with
  | nil => exact List.mem_cons_self _ _
  | cons x xs ih =>
    simp only [firstMax]
    by_cases hx : x.expiresAt > c.expiresAt
    · simp only [hx, if_true]
      rcases List.mem_cons.mp (ih x) with h | h
      · rw [h]; exact List.mem_cons_of_mem c (List.mem_cons_self x xs)
      · exact List.mem_cons_of_mem c (List.mem_cons_of_mem x h)
    · simp only [hx, if_false]
      rcases List.mem_cons.mp (ih c) with h | h
      · rw [h]; exact List.mem_cons_self c (x :: xs)
      · exact List.mem_cons_of_mem c (List.mem_cons_of_mem x h)

/-- `firstMax` is the first element of the list attaining the maximum
`expiresAt`: everything before it is strictly smaller, everything after is no
larger. -/
theorem firstMax_decomp :
    ∀ (l : List Candidate) (c : Candidate),
      ∃ l₁ l₂, c :: l = l₁ ++ firstMax c l :: l₂ ∧
        (∀ x ∈ l₁, x.expiresAt < (firstMax c l).expiresAt) ∧
        (∀ x ∈ l₂, x.expiresAt ≤ (firstMax c l).expiresAt)
  | [], c => ⟨[], [], rfl, by simp, by simp⟩
  | x :: xs, c => by
    by_cases hx : x.expiresAt > c.expiresAt
    · have hred : firstMax c (x :: xs) = firstMax x xs := by simp [firstMax, hx]
      obtain ⟨l₁, l₂, hsplit, h₁, h₂⟩ := firstMax_decomp xs x
      refine ⟨c :: l₁, l₂, ?_, ?_, ?_⟩
      · rw [hred, List.cons_append, ← hsplit]
      · intro y hy
        rw [hred]
        rcases List.mem_cons.mp hy with h | h
        · subst h; exact lt_of_lt_of_le hx (le_firstMax xs x)
        · exact h₁ y h
      · intro y hy; rw [hred]; exact h₂ y hy
    · have hred : firstMax c (x :: xs) = firstMax c xs := by simp [firstMax, hx]
      have hxle : x.expiresAt ≤ c.expiresAt := le_of_not_lt hx
      obtain ⟨l₁, l₂, hsplit, h₁, h₂⟩ := firstMax_decomp xs c
      cases l₁ with
      | nil =>
        simp only [List.nil_append, List.cons.injEq] at hsplit
        obtain ⟨hc, hl₂⟩ := hsplit
        refine ⟨[], x :: l₂, ?_, by simp, ?_⟩
        · rw [hred, ← hc, List.nil_append, ← hl₂]
        · intro y hy
          rw [hred]
          rcases List.mem_cons.mp hy with h | h
          · subst h; rw [← hc]; exact hxle
          · exact h₂ y h
      | cons a l₁' =>
        simp only [List.cons_append, List.cons.injEq] at hsplit
        obtain ⟨ha, hxs⟩ := hsplit
        have hcfm : c.expiresAt < (firstMax c xs).expiresAt := by
          have hm := h₁ a (List.mem_cons_self a l₁')
          rwa [← ha] at hm
        refine ⟨c :: x :: l₁', l₂, ?_, ?_, ?_⟩
        · rw [hred]
          simp only [List.cons_append, List.cons.injEq, true_and]
          exact hxs
        · intro y hy
          rw [hred]
          rcases List.mem_cons.mp hy with h | h
          · subst h
            exact hcfm
          · rcases List.mem_cons.mp h with h' | h'
            · subst h'
              exact lt_of_le_of_lt hxle hcfm
            · exact h₁ y (List.mem_cons_of_mem a h')
        · intro y hy; rw [hred]; exact h₂ y hy

/-- If an insertion leaves the seen set empty then it was empty and the
inserted product was falsy. -/
theorem seenInsert_eq_nil (s : List String) (txo : Option Tx)
    (h : seenInsert s txo = []) :
    s = [] ∧ jsStrTruthy (txo.bind Tx.productId) = false := by
  cases hp : txo.bind Tx.productId with
  | none =>
    simp only [seenInsert, hp] at h
    exact ⟨h, by simp [jsStrTruthy]⟩
  | some p =>
    simp only [seenInsert, hp] at h
    by_cases hpe : p = ""
    · subst hpe
      simp only [ne_eq, not_true_eq_false, if_false] at h
      exact ⟨h, by simp [jsStrTruthy]⟩
    · simp only [ne_eq, hpe, not_false_eq_true, if_true] at h
      by_cases hc : s.contains p = true
      · simp only [hc, if_true] at h
        subst h
        simp at hc
      · simp only [hc, if_false] at h
        exact absurd h (by simp)

/-- If the whole accumulation is empty, the start was empty and every pair's
product id was falsy. -/
theorem seenFoldl_eq_nil :
    ∀ (pairs : List (Option Tx × Option Rn)) (s : List String),
      seenFoldl s pairs = [] →
      s = [] ∧ ∀ pr ∈ pairs, jsStrTruthy (pr.1.bind Tx.productId) = false
  | [], s, h => ⟨h, by simp⟩
  | pr :: rest, s, h => by
    simp only [seenFoldl, List.foldl_cons] at h
    obtain ⟨h1, h2⟩ := seenFoldl_eq_nil rest (seenInsert s pr.1) h
    obtain ⟨hs, htr⟩ := seenInsert_eq_nil s pr.1 h1
    refine ⟨hs, ?_⟩
    intro q hq
    rcases List.mem_cons.mp hq with h' | h'
    · rw [h']; exact htr
    · exact h2 q h'

/-- A truthy optional string is a `some`. -/
theorem jsStrTruthy_isSome (o : Option String) (h : jsStrTruthy o = true) :
    ∃ s, o = some s := by
  cases o with
  | none => simp [jsStrTruthy] at h
  | some s => exact ⟨s, rfl⟩

/-- Every branch of `finishJson` records the environment tried. -/
theorem finishJson_envTried (env : EnvCfg) (json : LVJson) :
    (finishJson env json).debug.envTried = some env.nodeEnv := by
  unfold finishJson
  split_ifs
  all_goals rfl

/-- A successful extraction implies the legacy status was 0. -/
theorem finishJson_some_status (env : EnvCfg) (json : LVJson) (s : String)
    (h : (finishJson env json).originalTxId = some s) :
    (finishJson env json).debug.status = some (.num 0) := by
  unfold finishJson at h ⊢
  split_ifs at h ⊢
  all_goals simp_all

/-- The `reduce` winner is one of the entries. -/
theorem reduceLatest_mem : ∀ (t : List Lri) (a : Lri), reduceLatest a t ∈ a :: t
  | [], a => List.mem_cons_self _ _
  | b :: t, a => by
    simp only [reduceLatest]
    by_cases hab : jsOrZeroNat a.expires_date_ms > jsOrZeroNat b.expires_date_ms
    · simp only [hab, if_true]
      rcases List.mem_cons.mp (reduceLatest_mem t a) with h | h
      · rw [h]; exact List.mem_cons_self a (b :: t)
      · exact List.mem_cons_of_mem a (List.mem_cons_of_mem b h)
    · simp only [hab, if_false]
      rcases List.mem_cons.mp (reduceLatest_mem t b) with h | h
      · rw [h]; exact List.mem_cons_of_mem a (List.mem_cons_self b t)
      · exact List.mem_cons_of_mem a (List.mem_cons_of_mem b h)

/-- The accumulator never exceeds the `reduce` winner's expiry. -/
theorem le_reduceLatest :
    ∀ (t : List Lri) (a : Lri),
      jsOrZeroNat a.expires_date_ms ≤ jsOrZeroNat (reduceLatest a t).expires_date_ms
  | [], a => le_refl _
  | b :: t, a => by
    simp only [reduceLatest]
    by_cases hab : jsOrZeroNat a.expires_date_ms > jsOrZeroNat b.expires_date_ms
    · simp only [hab, if_true]; exact le_reduceLatest t a
    · simp only [hab, if_false]
      exact le_trans (le_of_not_lt hab) (le_reduceLatest t b)

/-- The `reduce` winner attains the maximum `expires_date_ms`. -/
theorem reduceLatest_max :
    ∀ (t : List Lri) (a : Lri) (x : Lri), x ∈ a :: t →
      jsOrZeroNat x.expires_date_ms ≤ jsOrZeroNat (reduceLatest a t).expires_date_ms
  | [], a, x, hx => by
    rcases List.mem_cons.mp hx with h | h
    · rw [h]; exact le_refl _
    · simp at h
  | b :: t, a, x, hx => by
    simp only [reduceLatest]
    by_cases hab : jsOrZeroNat a.expires_date_ms > jsOrZeroNat b.expires_date_ms
    · simp only [hab, if_true]
      rcases List.mem_cons.mp hx with h | h
      · rw [h]; exact le_reduceLatest t a
      · rcases List.mem_cons.mp h with h' | h'
        · rw [h']
          exact le_trans (le_of_lt hab) (le_reduceLatest t a)
        · exact reduceLatest_max t a x (List.mem_cons_of_mem a h')
    · simp only [hab, if_false]
      rcases List.mem_cons.mp hx with h | h
      · rw [h]
        exact le_trans (le_of_not_lt hab) (le_reduceLatest t b)
      · exact reduceLatest_max t b x h

/-- A null-decode pair leaves the loop state unchanged when a (truthy) target
product filter is in force. -/
theorem stepPair_none (now : Nat) (target : Option String)
    (acc : Option Candidate × List String) (rno : Option Rn)
    (ht : jsStrTruthy target = true) :
    stepPair now target acc ((none : Option Tx), rno) = acc := by
  obtain ⟨s, hs⟩ := jsStrTruthy_isSome target ht
  subst hs
  simp [stepPair, seenInsert, skipForTarget, ht, Option.bind]

/-! ### Branch lemmas for the legacy resolver -/

/-- Malformed input short-circuits before any network call. -/
theorem resolveBody_guard (env : EnvCfg) (net : Nat → CallResult) (r : RIn)
    (hg : receiptGuardFails r = true) :
    resolveBody env net r =
      .ok ({ originalTxId := none,
             debug := { status := some (.num 21002), note := some "receipt missing or too short" } },
           []) := by
  unfold resolveBody
  rw [if_pos hg]

/-- No redirect status: exactly one call. -/
theorem resolveBody_noRedirect (env : EnvCfg) (net : Nat → CallResult) (r : RIn)
    (hg : receiptGuardFails r = false) (j0 : LVJson) (h0 : net 0 = .ok j0)
    (h7 : j0.status ≠ some (.num 21007)) (h8 : j0.status ≠ some (.num 21008)) :
    resolveBody env net r = .ok (finishJson env j0, [startUrl env]) := by
  unfold resolveBody
  rw [hg, h0]
  simp only [Bool.false_eq_true, if_false, if_neg h7, if_neg h8]

/-- Status 21007: one retry against the sandbox endpoint, no further redirect. -/
theorem resolveBody_21007 (env : EnvCfg) (net : Nat → CallResult) (r : RIn)
    (hg : receiptGuardFails r = false) (j0 : LVJson) (h0 : net 0 = .ok j0)
    (h7 : j0.status = some (.num 21007)) (j1 : LVJson) (h1 : net 1 = .ok j1)
    (h8 : j1.status ≠ some (.num 21008)) :
    resolveBody env net r = .ok (finishJson env j1, [startUrl env, .sandbox]) := by
  unfold resolveBody
  rw [hg, h0, h1]
  simp only [Bool.false_eq_true, if_false, if_pos h7, if_neg h8]

/-- Status 21007 then 21008: sandbox retry then production retry. -/
theorem resolveBody_21007_21008 (env : EnvCfg) (net : Nat → CallResult) (r : RIn)
    (hg : receiptGuardFails r = false) (j0 : LVJson) (h0 : net 0 = .ok j0)
    (h7 : j0.status = some (.num 21007)) (j1 : LVJson) (h1 : net 1 = .ok j1)
    (h8 : j1.status = some (.num 21008)) (j2 : LVJson) (h2 : net 2 = .ok j2) :
    resolveBody env net r = .ok (finishJson env j2, [startUrl env, .sandbox, .prod]) := by
  unfold resolveBody
  rw [hg, h0, h1, h2]
  simp only [Bool.false_eq_true, if_false, if_pos h7, if_pos h8]

/-- Status 21008 on the first call: one retry against production. -/
theorem resolveBody_21008 (env : EnvCfg) (net : Nat → CallResult) (r : RIn)
    (hg : receiptGuardFails r = false) (j0 : LVJson) (h0 : net 0 = .ok j0)
    (h8 : j0.status = some (.num 21008)) (j1 : LVJson) (h1 : net 1 = .ok j1) :
    resolveBody env net r = .ok (finishJson env j1, [startUrl env, .prod]) := by
  have h7 : j0.status ≠ some (.num 21007) := by rw [h8]; simp
  unfold resolveBody
  rw [hg, h0, h1]
  simp only [Bool.false_eq_true, if_false, if_neg h7, if_pos h8]

/-- Every run makes one of five call sequences: none, the start URL alone, or
the start URL followed by the single redirect retries. -/
theorem resolver_calls_shape (env : EnvCfg) (net : Nat → CallResult) (r : RIn) :
    (getOriginalTransactionIdFromReceipt env net r).2 = [] ∨
    (getOriginalTransactionIdFromReceipt env net r).2 = [startUrl env] ∨
    (getOriginalTransactionIdFromReceipt env net r).2 = [startUrl env, .sandbox] ∨
    (getOriginalTransactionIdFromReceipt env net r).2 = [startUrl env, .prod] ∨
    (getOriginalTransactionIdFromReceipt env net r).2 = [startUrl env, .sandbox, .prod] := by
  unfold getOriginalTransactionIdFromReceipt resolveBody
  cases hg : receiptGuardFails r with
  | true => simp
  | false =>
    simp only [Bool.false_eq_true, if_false]
    cases hn0 : net 0 with
    | netThrow e => simp
    | ok j0 =>
      dsimp only
      by_cases h7 : j0.status = some (.num 21007)
      · rw [if_pos h7]
        cases hn1 : net 1 with
        | netThrow e => simp
        | ok j1 =>
          dsimp only
          by_cases h8 : j1.status = some (.num 21008)
          · rw [if_pos h8]
            cases hn2 : net 2 with
            | netThrow e => simp
            | ok j2 => simp
          · rw [if_neg h8]
            simp
      · rw [if_neg h7]
        by_cases h8 : j0.status = some (.num 21008)
        · rw [if_pos h8]
          cases hn1 : net 1 with
          | netThrow e => simp
          | ok j1 => simp
        · rw [if_neg h8]
          simp

/-- Status 21007 and a thrown sandbox retry: the failure escapes after the
two calls. -/
theorem resolveBody_21007_throw1 (env : EnvCfg) (net : Nat → CallResult) (r : RIn)
    (hg : receiptGuardFails r = false) (j0 : LVJson) (h0 : net 0 = .ok j0)
    (h7 : j0.status = some (.num 21007)) (e : String) (h1 : net 1 = .netThrow e) :
    resolveBody env net r = .error (e, [startUrl env, .sandbox]) := by
  unfold resolveBody
  rw [hg, h0, h1]
  simp only [Bool.false_eq_true, if_false, if_pos h7]

/-- Status 21007 then 21008 and a thrown production retry. -/
theorem resolveBody_21007_21008_throw2 (env : EnvCfg) (net : Nat → CallResult) (r : RIn)
    (hg : receiptGuardFails r = false) (j0 : LVJson) (h0 : net 0 = .ok j0)
    (h7 : j0.status = some (.num 21007)) (j1 : LVJson) (h1 : net 1 = .ok j1)
    (h8 : j1.status = some (.num 21008)) (e : String) (h2 : net 2 = .netThrow e) :
    resolveBody env net r = .error (e, [startUrl env, .sandbox, .prod]) := by
  unfold resolveBody
  rw [hg, h0, h1, h2]
  simp only [Bool.false_eq_true, if_false, if_pos h7, if_pos h8]

/-- Status 21008 and a thrown production retry. -/
theorem resolveBody_21008_throw1 (env : EnvCfg) (net : Nat → CallResult) (r : RIn)
    (hg : receiptGuardFails r = false) (j0 : LVJson) (h0 : net 0 = .ok j0)
    (h8 : j0.status = some (.num 21008)) (e : String) (h1 : net 1 = .netThrow e) :
    resolveBody env net r = .error (e, [startUrl env, .prod]) := by
  have h7 : j0.status ≠ some (.num 21007) := by rw [h8]; simp
  unfold resolveBody
  rw [hg, h0, h1]
  simp only [Bool.false_eq_true, if_false, if_neg h7, if_pos h8]

/-- The `try` block succeeding passes its value through unchanged. -/
theorem getOriginal_of_ok (env : EnvCfg) (net : Nat → CallResult) (r : RIn)
    (v : ResolveResult × List VUrl) (h : resolveBody env net r = .ok v) :
    getOriginalTransactionIdFromReceipt env net r = v := by
  unfold getOriginalTransactionIdFromReceipt
  rw [h]

/-- The `catch` converts a thrown error into the null result with the error
diagnostic, keeping the calls already made. -/
theorem getOriginal_of_error (env : EnvCfg) (net : Nat → CallResult) (r : RIn)
    (e : String) (calls : List VUrl) (h : resolveBody env net r = .error (e, calls)) :
    getOriginalTransactionIdFromReceipt env net r =
      ({ originalTxId := none, debug := { error := some e } }, calls) := by
  unfold getOriginalTransactionIdFromReceipt
  rw [h]

/-- Every successful run's result is either the malformed-receipt result or a
`finishJson` of some response body. -/
theorem resolveBody_ok_shape (env : EnvCfg) (net : Nat → CallResult) (r : RIn)
    (v : ResolveResult × List VUrl) (h : resolveBody env net r = .ok v) :
    v.1 = { originalTxId := none,
            debug := { status := some (.num 21002), note := some "receipt missing or too short" } } ∨
    ∃ j, v.1 = finishJson env j := by
  unfold resolveBody at h
  by_cases hg : receiptGuardFails r = true
  · rw [if_pos hg] at h
    simp only [Except.ok.injEq] at h
    left
    rw [← h]
  · rw [if_neg hg] at h
    cases hn0 : net 0 with
    | netThrow e => rw [hn0] at h; exact absurd h (by simp)
    | ok j0 =>
      rw [hn0] at h
      dsimp only at h
      by_cases h7 : j0.status = some (.num 21007)
      · rw [if_pos h7] at h
        cases hn1 : net 1 with
        | netThrow e => rw [hn1] at h; exact absurd h (by simp)
        | ok j1 =>
          rw [hn1] at h
          dsimp only at h
          by_cases h8 : j1.status = some (.num 21008)
          · rw [if_pos h8] at h
            cases hn2 : net 2 with
            | netThrow e => rw [hn2] at h; exact absurd h (by simp)
            | ok j2 =>
              rw [hn2] at h
              dsimp only at h
              simp only [Except.ok.injEq] at h
              exact Or.inr ⟨j2, by rw [← h]⟩
          · rw [if_neg h8] at h
            simp only [Except.ok.injEq] at h
            exact Or.inr ⟨j1, by rw [← h]⟩
      · rw [if_neg h7] at h
        by_cases h8 : j0.status = some (.num 21008)
        · rw [if_pos h8] at h
          cases hn1 : net 1 with
          | netThrow e => rw [hn1] at h; exact absurd h (by simp)
          | ok j1 =>
            rw [hn1] at h
            dsimp only at h
            simp only [Except.ok.injEq] at h
            exact Or.inr ⟨j1, by rw [← h]⟩
        · rw [if_neg h8] at h
          simp only [Except.ok.injEq] at h
          exact Or.inr ⟨j0, by rw [← h]⟩

/-! ## Claim theorems -/

/-- C1 counterexample: the claim is false as stated. A decoded transaction
whose `revocationDate` is present (non-null) but equal to 0 is not treated as
cancelled (the source tests JS truthiness, `Boolean(0)` is false), so with a
future expiry `decideActiveFromStatuses` reports it active. -/
theorem c1_counterexample :
    txRevokedZero.revocationDate ≠ none ∧
    decideActiveFromStatuses (fun _ => .ok (some txRevokedZero)) dRnNone 1 (some resp1) none =
      .ok { active := true, productId := some "p", expiresAt := some 2,
            seenProducts := ["p"] } :=
  ⟨by simp [txRevokedZero], rfl⟩

/-- C1 (amended): cancellation uses JS truthiness — a candidate whose
revocation or cancellation date is truthy (present and non-zero) is never
active; per candidate, `active = NOT cancelled AND (expiresAt > now OR
graceUntil > now)` with `expiresAt` and `graceUntil` defaulting to 0 when
absent; and the decision reports active only with the fields of a filtered
candidate whose own `active` flag is true. -/
theorem c1_cancelled_never_active :
    (∀ (now : Nat) (txo : Option Tx) (rno : Option Rn),
       (candidateOf now txo rno).active =
         (!txCancelled txo &&
           (decide (txExpiresMs txo > now) || decide (rnGraceMs rno > now)))) ∧
    (∀ (now : Nat) (txo : Option Tx) (rno : Option Rn),
       txCancelled txo = true → (candidateOf now txo rno).active = false) ∧
    (∀ (dT : DecodeTx) (dR : DecodeRn) (now : Nat) (resp : Option StatusResponse)
       (target : Option String) (pairs : List (Option Tx × Option Rn)) (d : Decision),
       decodeAll dT dR (statusItems resp) = .ok pairs →
       decideActiveFromStatuses dT dR now resp target = .ok d →
       d.active = true →
       ∃ c ∈ candsOf now target pairs,
         c.active = true ∧ d.productId = c.productId ∧ d.expiresAt = some c.expiresAt) := by
  refine ⟨fun now txo rno => rfl, fun now txo rno h => by simp [candidateOf, h], ?_⟩
  intro dT dR now resp target pairs d hdec hok hact
  rw [decideActive_spec dT dR now resp target pairs hdec] at hok
  cases hc : candsOf now target pairs with
  | nil =>
    rw [hc] at hok
    simp only [List.foldl_nil] at hok
    simp only [Except.ok.injEq] at hok
    subst hok
    simp at hact
  | cons a l =>
    rw [hc, foldl_pick_cons] at hok
    dsimp only at hok
    simp only [Except.ok.injEq] at hok
    subst hok
    refine ⟨firstMax a l, ?_, hact, rfl, rfl⟩
    exact firstMax_mem a l

/-- C1 witness: the amended theorem applied to a single uncancelled future
transaction whose decision is active. -/
theorem c1_cancelled_never_active_witness :
    ∃ c ∈ candsOf 1 none [((some txAliveW : Option Tx), (none : Option Rn))],
      c.active = true ∧
      ({ active := true, productId := some "w", expiresAt := some 5,
         seenProducts := ["w"] } : Decision).productId = c.productId ∧
      ({ active := true, productId := some "w", expiresAt := some 5,
         seenProducts := ["w"] } : Decision).expiresAt = some c.expiresAt :=
  c1_cancelled_never_active.2.2 (fun _ => .ok (some txAliveW)) dRnNone 1 (some resp1) none
    [(some txAliveW, none)]
    { active := true, productId := some "w", expiresAt := some 5, seenProducts := ["w"] }
    rfl rfl rfl

/-- C2: for every non-empty filtered candidate set, the decision carries
exactly the fields of the first candidate attaining the greatest `expiresAt`
(strict greater-than comparison, so the first encountered wins ties): every
earlier candidate has a strictly smaller expiry, every later one no larger. -/
theorem c2_newest_wins (dT : DecodeTx) (dR : DecodeRn) (now : Nat)
    (resp : Option StatusResponse) (target : Option String)
    (pairs : List (Option Tx × Option Rn))
    (hdec : decodeAll dT dR (statusItems resp) = .ok pairs)
    (hne : candsOf now target pairs ≠ []) :
    ∃ c l₁ l₂,
      decideActiveFromStatuses dT dR now resp target =
        .ok { active := c.active, productId := c.productId, expiresAt := some c.expiresAt,
              seenProducts := seenOf pairs } ∧
      candsOf now target pairs = l₁ ++ c :: l₂ ∧
      (∀ x ∈ l₁, x.expiresAt < c.expiresAt) ∧
      (∀ x ∈ l₂, x.expiresAt ≤ c.expiresAt) := by
  obtain ⟨a, l, hc⟩ : ∃ a l, candsOf now target pairs = a :: l := by
    cases hcs : candsOf now target pairs with
    | nil => exact absurd hcs hne
    | cons a l => exact ⟨a, l, rfl⟩
  obtain ⟨l₁, l₂, hsplit, h₁, h₂⟩ := firstMax_decomp l a
  refine ⟨firstMax a l, l₁, l₂, ?_, ?_, h₁, h₂⟩
  · rw [decideActive_spec dT dR now resp target pairs hdec, hc, foldl_pick_cons]
  · rw [hc]
    exact hsplit

/-- C2 witness: two candidates with identical expiry 5 — the theorem applies
and the first-seen one is selected. -/
theorem c2_newest_wins_witness :
    ∃ c l₁ l₂,
      decideActiveFromStatuses dTxTie dRnNone 0 (some resp2) none =
        .ok { active := c.active, productId := c.productId, expiresAt := some c.expiresAt,
              seenProducts := seenOf [((some txTieA : Option Tx), (none : Option Rn)),
                                      (some txTieB, none)] } ∧
      candsOf 0 none [((some txTieA : Option Tx), (none : Option Rn)), (some txTieB, none)] =
        l₁ ++ c :: l₂ ∧
      (∀ x ∈ l₁, x.expiresAt < c.expiresAt) ∧
      (∀ x ∈ l₂, x.expiresAt ≤ c.expiresAt) :=
  c2_newest_wins dTxTie dRnNone 0 (some resp2) none
    [(some txTieA, none), (some txTieB, none)] rfl (by decide)

/-- C3 counterexample: an authoritative-lookup failure that is a timeout (and
carries no HTTP status code) is answered with 500, not the claimed 504. -/
theorem c3_counterexample :
    ({ httpStatusCode := none, isTimeout := true } : ApiError).isTimeout = true ∧
    verifyAppleReceiptApiFailure { httpStatusCode := none, isTimeout := true } =
      { status := 500, active := false, reason := some "APPLE_SERVER_API_ERROR" } ∧
    (verifyAppleReceiptApiFailure { httpStatusCode := none, isTimeout := true }).status ≠ 504 :=
  ⟨rfl, rfl, by decide⟩

/-- C3 (amended): when the authoritative lookup fails, the handler answers 401
exactly when the thrown error's `httpStatusCode` is 401 and 500 in every other
case — including timeouts, for which no dedicated 504 path (and no configured
lookup timeout) exists; the body always has `active: false` and reason
`APPLE_SERVER_API_ERROR`, never a fabricated entitlement. -/
theorem c3_upstream_failure_status (e : ApiError) :
    (verifyAppleReceiptApiFailure e).status =
      (if jsOrZeroNat e.httpStatusCode = 401 then 401 else 500) ∧
    (verifyAppleReceiptApiFailure e).status ≠ 504 ∧
    (verifyAppleReceiptApiFailure e).active = false ∧
    (verifyAppleReceiptApiFailure e).reason = some "APPLE_SERVER_API_ERROR" := by
  refine ⟨rfl, ?_, rfl, rfl⟩
  by_cases h : jsOrZeroNat e.httpStatusCode = 401
  · simp [verifyAppleReceiptApiFailure, h]
  · simp [verifyAppleReceiptApiFailure, h]

/-- C4 counterexample: with a target product that matches nothing the reason
is `NO_TRANSACTIONS` — exactly the same reason as when there are no
transactions at all — so the decision's reason does not distinguish the two
cases; only `debug.seenProducts` (non-empty, `["p1"]`) does. -/
theorem c4_counterexample :
    decideActiveFromStatuses (fun _ => .ok (some txP1)) dRnNone 0 (some resp1) (some "p2") =
      .ok { active := false, reason := some "NO_TRANSACTIONS", seenProducts := ["p1"] } ∧
    decideActiveFromStatuses (fun _ => .ok (some txP1)) dRnNone 0 none (some "p2") =
      .ok { active := false, reason := some "NO_TRANSACTIONS", seenProducts := [] } :=
  ⟨rfl, rfl⟩

/-- C4 (amended): when no candidate survives the target filter the decision is
non-active with reason `NO_TRANSACTIONS` (the same reason as for an empty
candidate set — the reason does not distinguish the cases), and
`debug.seenProducts` is non-empty whenever some pair carries a truthy product
id, which is what distinguishes "target not among seen products" from "no
transactions at all". -/
theorem c4_target_not_found (dT : DecodeTx) (dR : DecodeRn) (now : Nat)
    (resp : Option StatusResponse) (target : Option String)
    (pairs : List (Option Tx × Option Rn))
    (hdec : decodeAll dT dR (statusItems resp) = .ok pairs)
    (hempty : candsOf now target pairs = []) :
    decideActiveFromStatuses dT dR now resp target =
      .ok { active := false, reason := some "NO_TRANSACTIONS", seenProducts := seenOf pairs } ∧
    ((∃ pr ∈ pairs, jsStrTruthy (pr.1.bind Tx.productId) = true) → seenOf pairs ≠ []) := by
  constructor
  · rw [decideActive_spec dT dR now resp target pairs hdec, hempty]
    rfl
  · rintro ⟨pr, hmem, htr⟩ hnil
    obtain ⟨-, hall⟩ := seenFoldl_eq_nil pairs [] hnil
    rw [hall pr hmem] at htr
    exact Bool.false_ne_true htr

/-- C4 witness: the amended theorem applied to one candidate for product
`"p1"` filtered out by target `"zz"`. -/
theorem c4_target_not_found_witness :
    (decideActiveFromStatuses (fun _ => .ok (some txP1)) dRnNone 5 (some resp1) (some "zz") =
      .ok { active := false, reason := some "NO_TRANSACTIONS",
            seenProducts := seenOf [((some txP1 : Option Tx), (none : Option Rn))] }) ∧
    ((∃ pr ∈ [((some txP1 : Option Tx), (none : Option Rn))],
        jsStrTruthy (pr.1.bind Tx.productId) = true) →
      seenOf [((some txP1 : Option Tx), (none : Option Rn))] ≠ []) :=
  c4_target_not_found (fun _ => .ok (some txP1)) dRnNone 5 (some resp1) (some "zz")
    [(some txP1, none)] rfl rfl

/-- C5: a receipt blob that is absent, not a string, or shorter than 20
characters makes `getOriginalTransactionIdFromReceipt` return the
status-21002 malformed-receipt failure with `originalTxId: null`, and the
`fetch` collaborator is never invoked (the call list is empty). -/
theorem c5_malformed_short_circuit (env : EnvCfg) (net : Nat → CallResult) (r : RIn)
    (h : r = .undef ∨ r = .nonString ∨ ∃ s, r = .str s ∧ s.length < 20) :
    getOriginalTransactionIdFromReceipt env net r =
      ({ originalTxId := none,
         debug := { status := some (.num 21002), note := some "receipt missing or too short" } },
       []) := by
  have hg : receiptGuardFails r = true := by
    rcases h with h | h | ⟨s, hs, hlen⟩
    · rw [h]; rfl
    · rw [h]; rfl
    · rw [hs]; simp [receiptGuardFails, hlen]
  unfold getOriginalTransactionIdFromReceipt
  rw [resolveBody_guard env net r hg]

/-- C5 witness: the theorem applied to an absent blob, against a network
oracle that would throw if it were ever consulted. -/
theorem c5_malformed_short_circuit_witness :
    getOriginalTransactionIdFromReceipt envSandbox netThrowAll .undef =
      ({ originalTxId := none,
         debug := { status := some (.num 21002), note := some "receipt missing or too short" } },
       []) :=
  c5_malformed_short_circuit envSandbox netThrowAll .undef (Or.inl rfl)

/-- C6: the legacy resolver makes at most three calls and at most one retry
per direction; a first response of 21007 triggers exactly one sandbox retry
(call 1 is the sandbox URL), with a third (production) call exactly when that
retry answers 21008; a first response of 21008 triggers exactly one
production retry and nothing more. -/
theorem c6_redirect_budget (env : EnvCfg) (net : Nat → CallResult) (r : RIn) :
    (getOriginalTransactionIdFromReceipt env net r).2.length ≤ 3 ∧
    (((getOriginalTransactionIdFromReceipt env net r).2.drop 1).count VUrl.sandbox ≤ 1 ∧
     ((getOriginalTransactionIdFromReceipt env net r).2.drop 1).count VUrl.prod ≤ 1) ∧
    (∀ j0 : LVJson, receiptGuardFails r = false → net 0 = .ok j0 →
       j0.status = some (.num 21007) →
       (getOriginalTransactionIdFromReceipt env net r).2[1]? = some VUrl.sandbox ∧
       ∀ j1 : LVJson, net 1 = .ok j1 →
         (j1.status = some (.num 21008) →
            (getOriginalTransactionIdFromReceipt env net r).2 =
              [startUrl env, .sandbox, .prod]) ∧
         (j1.status ≠ some (.num 21008) →
            (getOriginalTransactionIdFromReceipt env net r).2 = [startUrl env, .sandbox])) ∧
    (∀ j0 : LVJson, receiptGuardFails r = false → net 0 = .ok j0 →
       j0.status = some (.num 21008) →
       (getOriginalTransactionIdFromReceipt env net r).2 = [startUrl env, .prod]) := by
  refine ⟨?_, ⟨?_, ?_⟩, ?_, ?_⟩
  · rcases resolver_calls_shape env net r with h | h | h | h | h <;> rw [h] <;> simp
  · rcases resolver_calls_shape env net r with h | h | h | h | h <;> rw [h] <;> simp
  · rcases resolver_calls_shape env net r with h | h | h | h | h <;> rw [h] <;> simp
  · intro j0 hg h0 h7
    refine ⟨?_, ?_⟩
    · cases hn1 : net 1 with
      | netThrow e =>
        rw [getOriginal_of_error env net r e _
          (resolveBody_21007_throw1 env net r hg j0 h0 h7 e hn1)]
        rfl
      | ok j1 =>
        by_cases h8 : j1.status = some (.num 21008)
        · cases hn2 : net 2 with
          | netThrow e2 =>
            rw [getOriginal_of_error env net r e2 _
              (resolveBody_21007_21008_throw2 env net r hg j0 h0 h7 j1 hn1 h8 e2 hn2)]
            rfl
          | ok j2 =>
            rw [getOriginal_of_ok env net r _
              (resolveBody_21007_21008 env net r hg j0 h0 h7 j1 hn1 h8 j2 hn2)]
            rfl
        · rw [getOriginal_of_ok env net r _
            (resolveBody_21007 env net r hg j0 h0 h7 j1 hn1 h8)]
          rfl
    · intro j1 hn1
      constructor
      · intro h8
        cases hn2 : net 2 with
        | netThrow e2 =>
          rw [getOriginal_of_error env net r e2 _
            (resolveBody_21007_21008_throw2 env net r hg j0 h0 h7 j1 hn1 h8 e2 hn2)]
        | ok j2 =>
          rw [getOriginal_of_ok env net r _
            (resolveBody_21007_21008 env net r hg j0 h0 h7 j1 hn1 h8 j2 hn2)]
      · intro h8
        rw [getOriginal_of_ok env net r _
          (resolveBody_21007 env net r hg j0 h0 h7 j1 hn1 h8)]
  · intro j0 hg h0 h8
    cases hn1 : net 1 with
    | netThrow e =>
      rw [getOriginal_of_error env net r e _
        (resolveBody_21008_throw1 env net r hg j0 h0 h8 e hn1)]
    | ok j1 =>
      rw [getOriginal_of_ok env net r _
        (resolveBody_21008 env net r hg j0 h0 h8 j1 hn1)]

/-- C6 witness: a 21007-then-21008 run makes exactly the three calls — start,
sandbox retry, production retry — within the budget. -/
theorem c6_redirect_budget_witness :
    (getOriginalTransactionIdFromReceipt envSandbox netRedirect receiptOk).2 =
      [startUrl envSandbox, VUrl.sandbox, VUrl.prod] ∧
    (getOriginalTransactionIdFromReceipt envSandbox netRedirect receiptOk).2.length ≤ 3 := by
  have h := c6_redirect_budget envSandbox netRedirect receiptOk
  have h7 := (h.2.2.1 { status := some (.num 21007) } rfl rfl rfl).2
    { status := some (.num 21008) } rfl
  exact ⟨h7.1 rfl, h.1⟩

/-- C7: on legacy status 0 (reached without redirects) the result is the
extraction `finishJson`; the preferred identifier comes from the
`latest_receipt_info` entry attaining the greatest `expires_date_ms`; if that
list is empty or absent the first entry of `receipt.in_app` is used; and if no
identifier is found on either path the failure carries the distinct
no-identifier-despite-success diagnostic (status 0 plus the dedicated note)
rather than a guessed identifier. -/
theorem c7_success_extraction :
    (∀ (env : EnvCfg) (net : Nat → CallResult) (r : RIn) (j0 : LVJson),
       receiptGuardFails r = false → net 0 = .ok j0 → j0.status = some (.num 0) →
       (getOriginalTransactionIdFromReceipt env net r).1 = finishJson env j0) ∧
    (∀ (json : LVJson) (h : Lri) (t : List Lri),
       json.latest_receipt_info = some (h :: t) →
       reduceLatest h t ∈ h :: t ∧
       (∀ x ∈ h :: t,
          jsOrZeroNat x.expires_date_ms ≤ jsOrZeroNat (reduceLatest h t).expires_date_ms) ∧
       latestOtid json = jsOrNullStr (reduceLatest h t).original_transaction_id) ∧
    (∀ (env : EnvCfg) (json : LVJson),
       json.status = some (.num 0) → jsStrTruthy (latestOtid json) = true →
       (finishJson env json).originalTxId = latestOtid json) ∧
    (∀ (env : EnvCfg) (json : LVJson) (rc : LVReceipt) (first : Lri) (rest : List Lri),
       json.status = some (.num 0) →
       (json.latest_receipt_info = none ∨ json.latest_receipt_info = some ([] : List Lri)) →
       json.receipt = some rc → rc.in_app = some (first :: rest) →
       jsStrTruthy (jsOrNullStr first.original_transaction_id) = true →
       (finishJson env json).originalTxId = jsOrNullStr first.original_transaction_id) ∧
    (∀ (env : EnvCfg) (json : LVJson),
       json.status = some (.num 0) → (finishJson env json).originalTxId = none →
       (finishJson env json).debug.note =
         some "No original_transaction_id in latest_receipt_info or receipt.in_app" ∧
       (finishJson env json).debug.status = some (.num 0)) := by
  refine ⟨?_, ?_, ?_, ?_, ?_⟩
  · intro env net r j0 hg h0 hs
    have h7 : j0.status ≠ some (.num 21007) := by rw [hs]; simp
    have h8 : j0.status ≠ some (.num 21008) := by rw [hs]; simp
    rw [getOriginal_of_ok env net r _ (resolveBody_noRedirect env net r hg j0 h0 h7 h8)]
  · intro json h t hl
    refine ⟨reduceLatest_mem t h, reduceLatest_max t h, ?_⟩
    simp [latestOtid, hl]
  · intro env json hs ht
    have hext : extractedOtid json = latestOtid json := by simp [extractedOtid, ht]
    simp [finishJson, hs, hext, ht]
  · intro env json rc first rest hs hemp hrc hia htr
    have hlat : latestOtid json = none := by
      rcases hemp with h | h
      · simp [latestOtid, h]
      · simp [latestOtid, h]
    have hext : extractedOtid json = jsOrNullStr first.original_transaction_id := by
      simp [extractedOtid, hlat, jsStrTruthy, fallbackOtid, hrc, hia]
    simp [finishJson, hs, hext, htr]
  · intro env json hs hnone
    unfold finishJson at hnone ⊢
    rw [if_pos hs] at hnone ⊢
    by_cases ht : jsStrTruthy (extractedOtid json) = true
    · rw [if_pos ht] at hnone
      obtain ⟨s, hsm⟩ := jsStrTruthy_isSome _ ht
      rw [hsm] at hnone
      exact absurd hnone (by simp)
    · rw [if_neg ht] at hnone ⊢
      exact ⟨rfl, rfl⟩

/-- C7 witness: the no-redirect conjunct applied to a concrete status-0
response with one renewal-history entry. -/
theorem c7_success_extraction_witness :
    (getOriginalTransactionIdFromReceipt envSandbox (fun _ => .ok jsonSuccess) receiptOk).1 =
      finishJson envSandbox jsonSuccess :=
  c7_success_extraction.1 envSandbox (fun _ => .ok jsonSuccess) receiptOk jsonSuccess rfl rfl rfl

/-- C8 counterexample: the claim is false as stated — when the transaction
decoder throws on the first record, `decideActiveFromStatuses` propagates the
exception and produces NO decision at all (the second, decodable record is
never processed); the handler's outer catch turns this into 500 SERVER_ERROR. -/
theorem c8_counterexample :
    decideActiveFromStatuses dTxThrow1 dRnNone 0 (some resp2) none = .error () ∧
    verifyHandleDecision (decideActiveFromStatuses dTxThrow1 dRnNone 0 (some resp2) none) =
      { status := 500, active := false, reason := some "SERVER_ERROR" } :=
  ⟨rfl, rfl⟩

/-- C8 (amended): a decoder that yields no record (null) does not abort the
decision — with a (truthy) target product filter such an item is skipped
entirely and the remaining records are still processed; but a decoder that
THROWS aborts the whole decision: the exception propagates out of
`decideActiveFromStatuses` and is caught only at the handler boundary, which
answers 500 SERVER_ERROR. -/
theorem c8_decode_failure :
    (∀ (dT : DecodeTx) (dR : DecodeRn) (now : Nat) (resp : Option StatusResponse)
       (target : Option String),
       decodeAll dT dR (statusItems resp) = .error () →
       decideActiveFromStatuses dT dR now resp target = .error () ∧
       verifyHandleDecision (decideActiveFromStatuses dT dR now resp target) =
         { status := 500, active := false, reason := some "SERVER_ERROR" }) ∧
    (∀ (now : Nat) (target : Option String) (acc : Option Candidate × List String)
       (rno : Option Rn) (l₁ l₂ : List (Option Tx × Option Rn)),
       jsStrTruthy target = true →
       List.foldl (stepPair now target) acc (l₁ ++ ((none : Option Tx), rno) :: l₂) =
         List.foldl (stepPair now target) acc (l₁ ++ l₂)) := by
  constructor
  · intro dT dR now resp target h
    have hp := processItems_error dT dR now target (statusItems resp) (none, []) h
    constructor
    · simp only [decideActiveFromStatuses, hp]
    · simp only [decideActiveFromStatuses, hp, verifyHandleDecision]
  · intro now target acc rno l₁ l₂ ht
    rw [List.foldl_append, List.foldl_append, List.foldl_cons,
        stepPair_none now target (List.foldl (stepPair now target) acc l₁) rno ht]

/-- C8 witness: the throw-propagation conjunct applied to a one-record
response whose decode throws. -/
theorem c8_decode_failure_witness :
    decideActiveFromStatuses dTxThrow1 dRnNone 7 (some resp1) none = .error () ∧
    verifyHandleDecision (decideActiveFromStatuses dTxThrow1 dRnNone 7 (some resp1) none) =
      { status := 500, active := false, reason := some "SERVER_ERROR" } :=
  c8_decode_failure.1 dTxThrow1 dRnNone 7 (some resp1) none rfl

/-- C9 (implicit): `getOriginalTransactionIdFromReceipt` never throws — for
every environment, every network behaviour (including thrown exceptions and
sentinel non-JSON bodies) and every input it returns a
`{originalTxId, debug}` value (it is a total function); a thrown error is
converted into `originalTxId: null` with the error diagnostic; the debug
object is never empty; and an identifier is only ever reported after a
status-0 response. -/
theorem c9_total_result (env : EnvCfg) (net : Nat → CallResult) (r : RIn) :
    (∀ (e : String) (calls : List VUrl),
       resolveBody env net r = .error (e, calls) →
       (getOriginalTransactionIdFromReceipt env net r).1 =
         { originalTxId := none, debug := { error := some e } }) ∧
    (getOriginalTransactionIdFromReceipt env net r).1.debug ≠ ({} : RDebug) ∧
    (∀ s : String, (getOriginalTransactionIdFromReceipt env net r).1.originalTxId = some s →
       (getOriginalTransactionIdFromReceipt env net r).1.debug.status = some (.num 0)) := by
  refine ⟨?_, ?_, ?_⟩
  · intro e calls h
    rw [getOriginal_of_error env net r e calls h]
  · cases hb : resolveBody env net r with
    | error p =>
      obtain ⟨e, calls⟩ := p
      rw [getOriginal_of_error env net r e calls hb]
      intro hEq
      have hcontra := congrArg RDebug.error hEq
      simp at hcontra
    | ok v =>
      rw [getOriginal_of_ok env net r v hb]
      rcases resolveBody_ok_shape env net r v hb with h | ⟨j, h⟩
      · rw [h]
        intro hEq
        have hcontra := congrArg RDebug.status hEq
        simp at hcontra
      · rw [h]
        intro hEq
        have h1 := finishJson_envTried env j
        rw [hEq] at h1
        simp at h1
  · intro s hs
    cases hb : resolveBody env net r with
    | error p =>
      obtain ⟨e, calls⟩ := p
      rw [getOriginal_of_error env net r e calls hb] at hs
      simp at hs
    | ok v =>
      rw [getOriginal_of_ok env net r v hb] at hs ⊢
      rcases resolveBody_ok_shape env net r v hb with h | ⟨j, h⟩
      · rw [h] at hs
        simp at hs
      · rw [h] at hs ⊢
        exact finishJson_some_status env j s hs

/-- C9 witness: a first-call network throw is caught and converted into the
null result carrying the error diagnostic. -/
theorem c9_total_result_witness :
    (getOriginalTransactionIdFromReceipt envSandbox netThrowAll receiptOk).1 =
      { originalTxId := none, debug := { error := some "boom" } } :=
  (c9_total_result envSandbox netThrowAll receiptOk).1 "boom" [startUrl envSandbox] rfl

/-- C10 (implicit): candidate selection compares only `expiresAt` and ignores
the `active` flag — flipping a candidate's flag never changes which expiry
`pickNewest` keeps — so a cancelled record with the strictly greatest expiry
is selected over an active record: concretely, with an active candidate
(product `"alive"`, expiry 100) and a revoked one (product `"dead"`, expiry
200) at time 60, the decision is the cancelled record with `active: false`,
although an active qualifying candidate exists in the set. -/
theorem c10_newest_ignores_active :
    (∀ (n : Option Candidate) (c : Candidate) (b : Bool),
       (pickNewest n { c with active := b }).map Candidate.expiresAt =
         (pickNewest n c).map Candidate.expiresAt) ∧
    (∃ c ∈ candsOf 60 none [((some txAlive : Option Tx), (none : Option Rn)),
                            (some txDead, none)], c.active = true) ∧
    decideActiveFromStatuses dTxC10 dRnNone 60 (some resp2) none =
      .ok { active := false, productId := some "dead", expiresAt := some 200,
            seenProducts := ["alive", "dead"] } := by
  refine ⟨?_, ⟨candidateOf 60 (some txAlive) none, by decide, by decide⟩, rfl⟩
  intro n c b
  cases n with
  | none => rfl
  | some m =>
    simp only [pickNewest]
    by_cases hc : c.expiresAt > m.expiresAt
    · rw [if_pos hc, if_pos hc]
      rfl
    · rw [if_neg hc, if_neg hc]

end IapServer
